import Mathlib

/-!
Shallow embedding of `pkg/reconciler/kubernetes/internal/kubeclient.go`.

The gateway (discovery mapper, REST client, dynamic client) is modelled as an
environment of call outcomes; the client's control flow, namespace-scoping
policy and result population are translated function by function from the Go
source. Each operation returns, besides its Go return values, the list of
gateway calls it issued, so that dispatch and abort behaviour can be stated.
-/

/-- An error from the cluster gateway. `notFound` models
`k8serrors.IsNotFound(err)`; `msg` carries the rest of the error. -/
structure KubeErr where
  notFound : Bool := false
  msg : String := ""
deriving DecidableEq, Repr

/-- `schema.GroupVersionKind`. -/
structure GVK where
  group : String := ""
  version : String := ""
  kind : String := ""
deriving DecidableEq, Repr

/-- `schema.GroupVersionResource`. -/
structure GVR where
  group : String := ""
  version : String := ""
  resource : String := ""
deriving DecidableEq, Repr

/-- The part of `meta.RESTMapping` (together with the `resource.Helper` built
from it) that the client reads: the resolved `Resource` (a GVR) and
`NamespaceScoped` (the helper's scope flag). -/
structure RestMapping where
  Resource : GVR
  NamespaceScoped : Bool
deriving DecidableEq, Repr

/-- The part of `unstructured.Unstructured` the client reads and writes:
`GetName`, `GetNamespace`/`SetNamespace`, and `GroupVersionKind`. -/
structure Unstructured where
  name : String := ""
  ns : String := ""
  group : String := ""
  version : String := ""
  kind : String := ""
deriving DecidableEq, Repr

/-- The `Metadata` result struct of the Go client (the spec's
`OperationResult`). All fields default to the Go zero value `""`. -/
structure Metadata where
  Name : String := ""
  Namespace : String := ""
  Resource : String := ""
  Group : String := ""
  Version : String := ""
  Kind : String := ""
deriving DecidableEq, Repr

/-- A call issued to the gateway, with the arguments the client passed. -/
inductive Call where
  | getCall (ns name : String)
  | createCall (ns : String)
  | replaceCall (ns name : String)
  | refreshCall
  | deleteNamespaced (res : GVR) (ns name : String)
  | deleteCluster (res : GVR) (name : String)
  | patchNamespaced (res : GVR) (ns name : String)
  | patchCluster (res : GVR) (name : String)
  | listInfos (ns : String)
  | deleteNsObject (ns : String)
deriving DecidableEq, Repr

/-- Go's `strings.ToLower` on the ASCII kind names the client compares:
lowercase every character. (Stated on the character list so that it reduces
definitionally, unlike `String.toLower`.) -/
def lowerString (s : String) : String := ⟨s.data.map Char.toLower⟩

/-- `setDefaultNamespaceIfScopedAndNoneSet` from the source: when the helper is
namespace-scoped and the manifest has no namespace, set it to the override, or
to "default" when the override is empty. -/
def setDefaultNamespaceIfScopedAndNoneSet (ns : String) (u : Unstructured)
    (helperScoped : Bool) : Unstructured :=
  if helperScoped then
    if u.ns = "" then
      { u with ns := if ns = "" then "default" else ns }
    else u
  else u

/-- `setNamespaceIfScoped` from the source: when the manifest has no namespace
and the helper is namespace-scoped, set the manifest's namespace to `ns`. -/
def setNamespaceIfScoped (ns : String) (u : Unstructured)
    (helperScoped : Bool) : Unstructured :=
  if u.ns = "" ∧ helperScoped then { u with ns := ns } else u

/-- The namespace-mutation sequence `ApplyWithNamespaceOverride` performs on
the manifest (first `setDefaultNamespaceIfScopedAndNoneSet`, then
`setNamespaceIfScoped`), as a pure function on the manifest. -/
def mutateNamespace (overrideNs : String) (u : Unstructured)
    (helperScoped : Bool) : Unstructured :=
  setNamespaceIfScoped overrideNs
    (setDefaultNamespaceIfScopedAndNoneSet overrideNs u helperScoped) helperScoped

/-- The effective namespace computed during Apply: the manifest's namespace
field after the mutation sequence. -/
def effectiveNamespace (helperScoped : Bool) (u : Unstructured)
    (overrideNs : String) : String :=
  (mutateNamespace overrideNs u helperScoped).ns

/-- Outcomes of the gateway calls `ApplyWithNamespaceOverride` can issue, in
source order: the REST mapping lookup, REST client construction, `info.Get()`,
`helper.Create`, the replace call, and `info.Refresh` (whose outcome the
source discards with `_ =`). -/
structure ApplyEnv where
  restMapping : Except KubeErr RestMapping
  restClient : Except KubeErr Unit
  get : Except KubeErr Unit
  create : Except KubeErr Unit
  replace : Except KubeErr Unit
  refresh : Except KubeErr Unit
deriving Repr

/-- `ApplyWithNamespaceOverride` from the source. Returns the `Metadata`
(always a concrete struct, zero-valued on failure, as in Go), the error, and
the list of gateway calls issued. -/
def applyWithNamespaceOverride (env : ApplyEnv) (u0 : Unstructured)
    (namespaceOverride : String) : Metadata × Option KubeErr × List Call :=
  let metadata : Metadata := {}
  match env.restMapping with
  | .error e => (metadata, some e, [])
  | .ok rm =>
    match env.restClient with
    | .error e => (metadata, some e, [])
    | .ok _ =>
      let u := mutateNamespace namespaceOverride u0 rm.NamespaceScoped
      match env.get with
      | .error e =>
        if !e.notFound then
          (metadata, some e, [Call.getCall u.ns u.name])
        else
          match env.create with
          | .error e2 =>
            (metadata, some e2, [Call.getCall u.ns u.name, Call.createCall u.ns])
          | .ok _ =>
            ({ metadata with Name := u.name, Namespace := u.ns, Kind := u.kind },
             none, [Call.getCall u.ns u.name, Call.createCall u.ns])
      | .ok _ =>
        match env.replace with
        | .error e =>
          (metadata, some e, [Call.getCall u.ns u.name, Call.replaceCall u.ns u.name])
        | .ok _ =>
          ({ metadata with Name := u.name, Namespace := u.ns, Kind := u.kind },
           none,
           [Call.getCall u.ns u.name, Call.replaceCall u.ns u.name, Call.refreshCall])

/-- Outcomes of the gateway calls `DeleteResourceByKindAndNameAndNamespace`
can issue, in source order: `mapper.KindFor`, `mapper.RESTMapping`, REST
client construction, and the dynamic-client delete call. -/
structure DeleteEnv where
  kindFor : Except KubeErr GVK
  restMapping : Except KubeErr RestMapping
  restClient : Except KubeErr Unit
  deleteResult : Option KubeErr
deriving Repr

/-- `DeleteResourceByKindAndNameAndNamespace` from the source. The first
component models the `*Metadata` pointer (`none` = Go `nil`). -/
def deleteResourceByKindAndNameAndNamespace (env : DeleteEnv)
    (kind name ns : String) : Option Metadata × Option KubeErr × List Call :=
  match env.kindFor with
  | .error e => (none, some e, [])
  | .ok gvk =>
    let isNamespaceResource := lowerString gvk.kind = "namespace"
    let ns1 := if ¬isNamespaceResource ∧ ns = "" then "default" else ns
    match env.restMapping with
    | .error e => (none, some e, [])
    | .ok rm =>
      match env.restClient with
      | .error e => (none, some e, [])
      | .ok _ =>
        let call :=
          if rm.NamespaceScoped then Call.deleteNamespaced rm.Resource ns1 name
          else Call.deleteCluster rm.Resource name
        let ns2 := if isNamespaceResource then "" else ns1
        (some { Kind := kind, Name := name, Namespace := ns2 },
         env.deleteResult, [call])

/-- Outcomes of the gateway calls `PatchUsingStrategy` can issue, in source
order: `mapper.KindFor`, `mapper.RESTMapping`, REST client construction, and
the dynamic-client patch call (returning the updated resource on success). -/
structure PatchEnv where
  kindFor : Except KubeErr GVK
  restMapping : Except KubeErr RestMapping
  restClient : Except KubeErr Unit
  patchResult : Except KubeErr Unstructured
deriving Repr

/-- `PatchUsingStrategy` from the source. Returns the `Metadata` (zero-valued
on failure, as in Go), the updated resource pointer (`none` = Go `nil`), the
error, and the gateway calls issued. -/
def patchUsingStrategy (env : PatchEnv) (kind name ns : String) :
    Metadata × Option Unstructured × Option KubeErr × List Call :=
  let metadata : Metadata := {}
  match env.kindFor with
  | .error e => (metadata, none, some e, [])
  | .ok gvk =>
    match env.restMapping with
    | .error e => (metadata, none, some e, [])
    | .ok rm =>
      match env.restClient with
      | .error e => (metadata, none, some e, [])
      | .ok _ =>
        let call :=
          if rm.NamespaceScoped then Call.patchNamespaced rm.Resource ns name
          else Call.patchCluster rm.Resource name
        match env.patchResult with
        | .error e => (metadata, none, some e, [call])
        | .ok u =>
          ({ Name := u.name, Namespace := u.ns, Group := rm.Resource.group,
             Resource := rm.Resource.resource, Version := rm.Resource.version,
             Kind := gvk.kind },
           some u, none, [call])

/-- Outcomes of the gateway calls `DeleteNamespace` can issue: the multi-kind
listing `r.Infos()` of the namespace (each entry one remaining resource), and
the dynamic-client delete of the namespace object. -/
structure DeleteNsEnv where
  infos : Except KubeErr (List Unstructured)
  deleteNs : Option KubeErr
deriving Repr

/-- `DeleteNamespace` from the source: list everything in the namespace; on a
listing error return it; delete the namespace object only when the listing is
empty, otherwise return no error and issue no delete. -/
def deleteNamespace (env : DeleteNsEnv) (ns : String) :
    Option KubeErr × List Call :=
  match env.infos with
  | .error e => (some e, [Call.listInfos ns])
  | .ok infos =>
    if infos.length = 0 then
      (env.deleteNs, [Call.listInfos ns, Call.deleteNsObject ns])
    else
      (none, [Call.listInfos ns])

/-! Sample gateway data used by concrete counterexamples and witnesses. -/

/-- Resolved mapping for the cluster-scoped kind ClusterRole. -/
def clusterRoleMapping : RestMapping :=
  { Resource := { group := "rbac.authorization.k8s.io", version := "v1",
                  resource := "clusterroles" },
    NamespaceScoped := false }

/-- A ClusterRole manifest that (incorrectly) declares a namespace. -/
def clusterRoleManifest : Unstructured :=
  { name := "cr1", ns := "foo", group := "rbac.authorization.k8s.io",
    version := "v1", kind := "ClusterRole" }

/-- Apply environment where every gateway call succeeds, resolving to the
cluster-scoped ClusterRole mapping. -/
def applyEnvCluster : ApplyEnv :=
  { restMapping := .ok clusterRoleMapping, restClient := .ok (),
    get := .ok (), create := .ok (), replace := .ok (), refresh := .ok () }

/-! Basic lemmas about the namespace mutation. -/

/-- The namespace mutation never touches the manifest's name. -/
theorem mutateNamespace_name (o : String) (u : Unstructured) (s : Bool) :
    (mutateNamespace o u s).name = u.name := by
  unfold mutateNamespace setNamespaceIfScoped setDefaultNamespaceIfScopedAndNoneSet
  split <;> split <;> simp_all <;> split <;> simp_all

/-- The namespace mutation never touches the manifest's kind. -/
theorem mutateNamespace_kind (o : String) (u : Unstructured) (s : Bool) :
    (mutateNamespace o u s).kind = u.kind := by
  unfold mutateNamespace setNamespaceIfScoped setDefaultNamespaceIfScopedAndNoneSet
  split <;> split <;> simp_all <;> split <;> simp_all

/-- C1, counterexample. The claim says any cluster-scoped manifest ends with
effective namespace `""` for every declared namespace and override. But for a
cluster-scoped type the mutation sequence is a no-op, so a ClusterRole that
declares namespace "foo" keeps "foo", and Apply reports Namespace "foo". -/
theorem C1_counterexample :
    effectiveNamespace false clusterRoleManifest "bar" = "foo" ∧
    effectiveNamespace false clusterRoleManifest "bar" ≠ "" ∧
    (applyWithNamespaceOverride applyEnvCluster clusterRoleManifest "bar").1.Namespace = "foo" := by
  refine ⟨rfl, by decide, rfl⟩

/-- C1, amended: for every manifest whose resolved type is cluster-scoped, the
mutation sequence leaves the manifest entirely unchanged, so the effective
namespace equals the manifest's declared namespace (hence `""` exactly when
the manifest declared none); the override is ignored. -/
theorem C1_theorem (u : Unstructured) (o : String) :
    mutateNamespace o u false = u ∧ effectiveNamespace false u o = u.ns := by
  unfold effectiveNamespace mutateNamespace setNamespaceIfScoped
    setDefaultNamespaceIfScopedAndNoneSet
  simp

/-- C2: for a namespace-scoped resolved type, the effective namespace set on
the manifest during Apply is "default" when both the manifest namespace and
the override are empty, the override when only the manifest namespace is
empty, and the manifest's own namespace unchanged whenever it is non-empty. -/
theorem C2_theorem (u : Unstructured) (o : String) :
    (u.ns = "" → o = "" → effectiveNamespace true u o = "default") ∧
    (u.ns = "" → o ≠ "" → effectiveNamespace true u o = o) ∧
    (u.ns ≠ "" → effectiveNamespace true u o = u.ns) := by
  unfold effectiveNamespace mutateNamespace setNamespaceIfScoped
    setDefaultNamespaceIfScopedAndNoneSet
  refine ⟨?_, ?_, ?_⟩
  · intro h1 h2
    simp [h1, h2]
  · intro h1 h2
    simp [h1, h2]
  · intro h1
    simp [h1]

/-- C2, witness: the three branches at concrete inputs. -/
theorem C2_witness :
    effectiveNamespace true { name := "p" } "" = "default" ∧
    effectiveNamespace true { name := "p" } "bar" = "bar" ∧
    effectiveNamespace true { name := "p", ns := "foo" } "bar" = "foo" :=
  ⟨(C2_theorem { name := "p" } "").1 rfl rfl,
   (C2_theorem { name := "p" } "bar").2.1 rfl (by decide),
   (C2_theorem { name := "p", ns := "foo" } "bar").2.2 (by decide)⟩

/-- Resolved mapping for the namespace-scoped kind Deployment. -/
def deploymentsMapping : RestMapping :=
  { Resource := { group := "apps", version := "v1", resource := "deployments" },
    NamespaceScoped := true }

/-- A Deployment manifest with an explicit namespace. -/
def deploymentManifest : Unstructured :=
  { name := "d1", ns := "prod", group := "apps", version := "v1",
    kind := "Deployment" }

/-- Apply environment where every gateway call succeeds (replace path). -/
def applyEnvReplace : ApplyEnv :=
  { restMapping := .ok deploymentsMapping, restClient := .ok (),
    get := .ok (), create := .ok (), replace := .ok (), refresh := .ok () }

/-- Apply environment whose existence-check get reports not-found. -/
def applyEnvNotFound : ApplyEnv :=
  { restMapping := .ok deploymentsMapping, restClient := .ok (),
    get := .error { notFound := true }, create := .ok (), replace := .ok (),
    refresh := .ok () }

/-- Apply environment whose existence-check get fails with a transport
error that is not not-found. -/
def applyEnvLookupFail : ApplyEnv :=
  { restMapping := .ok deploymentsMapping, restClient := .ok (),
    get := .error { msg := "connection refused" }, create := .ok (),
    replace := .ok (), refresh := .ok () }

/-- C3: when the existence-check get fails with a not-found signal, Apply
proceeds to issue the create call; when it fails with any other error, Apply
returns that error and the only gateway call issued was the get — neither a
create nor a replace call happens. -/
theorem C3_theorem (env : ApplyEnv) (u : Unstructured) (o : String)
    (rm : RestMapping) (e : KubeErr)
    (hm : env.restMapping = .ok rm) (hc : env.restClient = .ok ())
    (hg : env.get = .error e) :
    (e.notFound = true →
      (applyWithNamespaceOverride env u o).2.2 =
        [Call.getCall (effectiveNamespace rm.NamespaceScoped u o) u.name,
         Call.createCall (effectiveNamespace rm.NamespaceScoped u o)]) ∧
    (e.notFound = false →
      applyWithNamespaceOverride env u o =
        ({}, some e, [Call.getCall (effectiveNamespace rm.NamespaceScoped u o) u.name]) ∧
      (∀ nsx, Call.createCall nsx ∉ (applyWithNamespaceOverride env u o).2.2) ∧
      (∀ nsx nx, Call.replaceCall nsx nx ∉ (applyWithNamespaceOverride env u o).2.2)) := by
  have hname := mutateNamespace_name o u rm.NamespaceScoped
  constructor
  · intro hnf
    cases hcr : env.create with
    | error e2 =>
      simp [applyWithNamespaceOverride, hm, hc, hg, hcr, hnf,
        effectiveNamespace, hname]
    | ok c =>
      simp [applyWithNamespaceOverride, hm, hc, hg, hcr, hnf,
        effectiveNamespace, hname]
  · intro hnf
    refine ⟨?_, ?_, ?_⟩ <;>
      simp [applyWithNamespaceOverride, hm, hc, hg, hnf,
        effectiveNamespace, hname]

/-- C3, witness: not-found leads to a create call; a non-not-found lookup
error aborts the apply with only the get issued. -/
theorem C3_witness :
    (applyWithNamespaceOverride applyEnvNotFound deploymentManifest "").2.2 =
      [Call.getCall "prod" "d1", Call.createCall "prod"] ∧
    applyWithNamespaceOverride applyEnvLookupFail deploymentManifest "" =
      ({}, some { msg := "connection refused" }, [Call.getCall "prod" "d1"]) :=
  ⟨(C3_theorem applyEnvNotFound deploymentManifest "" deploymentsMapping
      { notFound := true } rfl rfl rfl).1 rfl,
   ((C3_theorem applyEnvLookupFail deploymentManifest "" deploymentsMapping
      { msg := "connection refused" } rfl rfl rfl).2 rfl).1⟩

/-- C4, counterexample. The claim says the REPLACE path populates all six
result fields from the resolved type. In the code the replace path assigns
only Name, Namespace and Kind: here the resolved type has Resource
"deployments", yet the successful replace result carries Resource `""` (and
Group and Version `""`). -/
theorem C4_counterexample :
    applyWithNamespaceOverride applyEnvReplace deploymentManifest "" =
      ({ Name := "d1", Namespace := "prod", Kind := "Deployment" }, none,
       [Call.getCall "prod" "d1", Call.replaceCall "prod" "d1", Call.refreshCall]) ∧
    (applyWithNamespaceOverride applyEnvReplace deploymentManifest "").1.Resource = "" ∧
    deploymentsMapping.Resource.resource = "deployments" ∧
    ("" : String) ≠ "deployments" := by
  refine ⟨rfl, rfl, rfl, by decide⟩

/-- C4, amended: on both the CREATE and the REPLACE path, a successful Apply
populates only Name, Namespace and Kind (all taken from the mutated
manifest); Group, Version and Resource are left unset on both paths. -/
theorem C4_theorem (env : ApplyEnv) (u : Unstructured) (o : String)
    (rm : RestMapping)
    (hm : env.restMapping = .ok rm) (hc : env.restClient = .ok ()) :
    (env.get = .ok () → env.replace = .ok () →
      applyWithNamespaceOverride env u o =
        ({ Name := u.name, Namespace := effectiveNamespace rm.NamespaceScoped u o,
           Kind := u.kind }, none,
         [Call.getCall (effectiveNamespace rm.NamespaceScoped u o) u.name,
          Call.replaceCall (effectiveNamespace rm.NamespaceScoped u o) u.name,
          Call.refreshCall])) ∧
    (∀ e, env.get = .error e → e.notFound = true → env.create = .ok () →
      applyWithNamespaceOverride env u o =
        ({ Name := u.name, Namespace := effectiveNamespace rm.NamespaceScoped u o,
           Kind := u.kind }, none,
         [Call.getCall (effectiveNamespace rm.NamespaceScoped u o) u.name,
          Call.createCall (effectiveNamespace rm.NamespaceScoped u o)])) := by
  have hname := mutateNamespace_name o u rm.NamespaceScoped
  have hkind := mutateNamespace_kind o u rm.NamespaceScoped
  constructor
  · intro hg hr
    simp [applyWithNamespaceOverride, hm, hc, hg, hr, effectiveNamespace,
      hname, hkind]
  · intro e hg hnf hcr
    simp [applyWithNamespaceOverride, hm, hc, hg, hnf, hcr,
      effectiveNamespace, hname, hkind]

/-- C4, witness: the replace path at a concrete environment, with Group,
Version and Resource left at their zero value. -/
theorem C4_witness :
    applyWithNamespaceOverride applyEnvReplace deploymentManifest "" =
      ({ Name := "d1", Namespace := "prod", Kind := "Deployment" }, none,
       [Call.getCall "prod" "d1", Call.replaceCall "prod" "d1", Call.refreshCall]) :=
  (C4_theorem applyEnvReplace deploymentManifest "" deploymentsMapping
    rfl rfl).1 rfl rfl

/-- Resolved type identity for the namespace-scoped kind Pod. -/
def podGVK : GVK := { group := "", version := "v1", kind := "Pod" }

/-- Resolved mapping for Pod. -/
def podsMapping : RestMapping :=
  { Resource := { group := "", version := "v1", resource := "pods" },
    NamespaceScoped := true }

/-- Delete environment resolving the raw input "pods" to kind Pod. -/
def deleteEnvPods : DeleteEnv :=
  { kindFor := .ok podGVK, restMapping := .ok podsMapping,
    restClient := .ok (), deleteResult := none }

/-- Resolved type identity for the cluster-scoped Namespace kind. -/
def namespaceGVK : GVK := { group := "", version := "v1", kind := "Namespace" }

/-- Resolved mapping for Namespace (cluster-scoped). -/
def namespacesMapping : RestMapping :=
  { Resource := { group := "", version := "v1", resource := "namespaces" },
    NamespaceScoped := false }

/-- Delete environment resolving to the Namespace kind. -/
def deleteEnvNamespaces : DeleteEnv :=
  { kindFor := .ok namespaceGVK, restMapping := .ok namespacesMapping,
    restClient := .ok (), deleteResult := none }

/-- Patch environment for Pod whose patch call succeeds. -/
def patchEnvPods : PatchEnv :=
  { kindFor := .ok podGVK, restMapping := .ok podsMapping,
    restClient := .ok (),
    patchResult := .ok { name := "p1", ns := "ns1", kind := "Pod" } }

/-- Patch environment for Pod whose patch call fails with not-found. -/
def patchEnvNotFound : PatchEnv :=
  { kindFor := .ok podGVK, restMapping := .ok podsMapping,
    restClient := .ok (),
    patchResult := .error { notFound := true, msg := "pods p1 not found" } }

/-- C5, counterexample. The claim says every mutating operation's result Kind
is the resolved kind. But the delete operation copies the caller's raw input
string into the result: deleting with raw input "pods" (resolved kind "Pod")
returns Kind "pods". -/
theorem C5_counterexample :
    (deleteResourceByKindAndNameAndNamespace deleteEnvPods "pods" "p1" "ns1").1 =
      some { Kind := "pods", Name := "p1", Namespace := "ns1" } ∧
    deleteEnvPods.kindFor = .ok { group := "", version := "v1", kind := "Pod" } ∧
    ("pods" : String) ≠ "Pod" := by
  refine ⟨rfl, rfl, by decide⟩

/-- C5, amended: Patch results carry the resolved kind from discovery, and a
successful Apply carries the manifest's declared kind (the resolution input);
but DeleteByKindNameNamespace carries the caller's raw kind argument in the
result, even when it differs from the resolved kind. -/
theorem C5_theorem (envp : PatchEnv) (envd : DeleteEnv) (enva : ApplyEnv)
    (k n ns o : String) (u upd : Unstructured)
    (gvk gvkd : GVK) (rm rmd rma : RestMapping) :
    (envp.kindFor = .ok gvk → envp.restMapping = .ok rm →
     envp.restClient = .ok () → envp.patchResult = .ok upd →
      (patchUsingStrategy envp k n ns).1.Kind = gvk.kind) ∧
    (envd.kindFor = .ok gvkd → envd.restMapping = .ok rmd →
     envd.restClient = .ok () →
      ∃ m, (deleteResourceByKindAndNameAndNamespace envd k n ns).1 = some m ∧
        m.Kind = k) ∧
    (enva.restMapping = .ok rma → enva.restClient = .ok () →
     enva.get = .ok () → enva.replace = .ok () →
      (applyWithNamespaceOverride enva u o).1.Kind = u.kind) := by
  refine ⟨?_, ?_, ?_⟩
  · intro hk hm hc hp
    simp [patchUsingStrategy, hk, hm, hc, hp]
  · intro hk hm hc
    simp only [deleteResourceByKindAndNameAndNamespace, hk, hm, hc]
    exact ⟨_, rfl, rfl⟩
  · intro hm hc hg hr
    simp [applyWithNamespaceOverride, hm, hc, hg, hr,
      mutateNamespace_kind o u rma.NamespaceScoped]

/-- C5, witness: the three result kinds at concrete environments. -/
theorem C5_witness :
    (patchUsingStrategy patchEnvPods "pods" "p1" "ns1").1.Kind = "Pod" ∧
    (∃ m, (deleteResourceByKindAndNameAndNamespace deleteEnvPods "pods" "p1" "ns1").1 =
      some m ∧ m.Kind = "pods") ∧
    (applyWithNamespaceOverride applyEnvReplace deploymentManifest "").1.Kind =
      "Deployment" :=
  ⟨(C5_theorem patchEnvPods deleteEnvPods applyEnvReplace "pods" "p1" "ns1" ""
      deploymentManifest { name := "p1", ns := "ns1", kind := "Pod" }
      podGVK podGVK podsMapping podsMapping deploymentsMapping).1 rfl rfl rfl rfl,
   (C5_theorem patchEnvPods deleteEnvPods applyEnvReplace "pods" "p1" "ns1" ""
      deploymentManifest { name := "p1", ns := "ns1", kind := "Pod" }
      podGVK podGVK podsMapping podsMapping deploymentsMapping).2.1 rfl rfl rfl,
   (C5_theorem patchEnvPods deleteEnvPods applyEnvReplace "pods" "p1" "ns1" ""
      deploymentManifest { name := "p1", ns := "ns1", kind := "Pod" }
      podGVK podGVK podsMapping podsMapping deploymentsMapping).2.2 rfl rfl rfl rfl⟩

/-- C6: when the resolved kind is the namespace kind itself the result's
Namespace is `""` for every namespace argument, and (the namespace kind being
cluster-scoped) the whole outcome is independent of the namespace argument;
for every other resolved kind an empty namespace argument is replaced by
"default" both in the result and in the dispatched (namespace-scoped) delete
call. -/
theorem C6_theorem (env : DeleteEnv) (k n : String) (gvk : GVK)
    (rm : RestMapping)
    (hk : env.kindFor = .ok gvk) (hm : env.restMapping = .ok rm)
    (hc : env.restClient = .ok ()) :
    (lowerString gvk.kind = "namespace" →
      (∀ ns, (deleteResourceByKindAndNameAndNamespace env k n ns).1 =
        some { Kind := k, Name := n, Namespace := "" }) ∧
      (rm.NamespaceScoped = false → ∀ ns ns2,
        deleteResourceByKindAndNameAndNamespace env k n ns =
          deleteResourceByKindAndNameAndNamespace env k n ns2)) ∧
    (lowerString gvk.kind ≠ "namespace" →
      (deleteResourceByKindAndNameAndNamespace env k n "").1 =
        some { Kind := k, Name := n, Namespace := "default" } ∧
      (rm.NamespaceScoped = true →
        (deleteResourceByKindAndNameAndNamespace env k n "").2.2 =
          [Call.deleteNamespaced rm.Resource "default" n])) := by
  constructor
  · intro hns
    constructor
    · intro ns
      simp [deleteResourceByKindAndNameAndNamespace, hk, hm, hc, hns]
    · intro hsc ns ns2
      simp [deleteResourceByKindAndNameAndNamespace, hk, hm, hc, hns, hsc]
  · intro hns
    constructor
    · simp [deleteResourceByKindAndNameAndNamespace, hk, hm, hc, hns]
    · intro hsc
      simp [deleteResourceByKindAndNameAndNamespace, hk, hm, hc, hns, hsc]

/-- C6, witness: deletes of a Namespace ignore the namespace argument and
report Namespace `""`; a Pod delete with empty namespace argument defaults to
"default" in both the result and the dispatched call. -/
theorem C6_witness :
    (deleteResourceByKindAndNameAndNamespace deleteEnvNamespaces
        "namespace" "ns1" "whatever").1 =
      some { Kind := "namespace", Name := "ns1", Namespace := "" } ∧
    deleteResourceByKindAndNameAndNamespace deleteEnvNamespaces "namespace" "ns1" "a" =
      deleteResourceByKindAndNameAndNamespace deleteEnvNamespaces "namespace" "ns1" "b" ∧
    (deleteResourceByKindAndNameAndNamespace deleteEnvPods "pods" "p1" "").1 =
      some { Kind := "pods", Name := "p1", Namespace := "default" } ∧
    (deleteResourceByKindAndNameAndNamespace deleteEnvPods "pods" "p1" "").2.2 =
      [Call.deleteNamespaced podsMapping.Resource "default" "p1"] :=
  ⟨((C6_theorem deleteEnvNamespaces "namespace" "ns1" namespaceGVK
      namespacesMapping rfl rfl rfl).1 (by decide)).1 "whatever",
   ((C6_theorem deleteEnvNamespaces "namespace" "ns1" namespaceGVK
      namespacesMapping rfl rfl rfl).1 (by decide)).2 rfl "a" "b",
   ((C6_theorem deleteEnvPods "pods" "p1" podGVK podsMapping
      rfl rfl rfl).2 (by decide)).1,
   ((C6_theorem deleteEnvPods "pods" "p1" podGVK podsMapping
      rfl rfl rfl).2 (by decide)).2 rfl⟩

/-- Listing environment for a namespace that is already empty. -/
def deleteNsEnvEmpty : DeleteNsEnv := { infos := .ok [], deleteNs := none }

/-- Listing environment for a namespace that still contains a Pod. -/
def deleteNsEnvBusy : DeleteNsEnv :=
  { infos := .ok [{ name := "p1", ns := "ns1", kind := "Pod" }],
    deleteNs := none }

/-- Listing environment whose multi-kind listing fails. -/
def deleteNsEnvErr : DeleteNsEnv :=
  { infos := .error { msg := "list failed" }, deleteNs := none }

/-- C7: DeleteNamespace returns a listing error before any delete; with a
non-empty listing it issues no delete and returns no error; and the delete of
the namespace object is issued exactly when the listing succeeded and is
empty. -/
theorem C7_theorem (env : DeleteNsEnv) (ns : String) :
    (∀ e, env.infos = .error e →
      deleteNamespace env ns = (some e, [Call.listInfos ns])) ∧
    (env.infos = .ok [] →
      deleteNamespace env ns =
        (env.deleteNs, [Call.listInfos ns, Call.deleteNsObject ns])) ∧
    (∀ l, env.infos = .ok l → l ≠ [] →
      deleteNamespace env ns = (none, [Call.listInfos ns])) ∧
    (Call.deleteNsObject ns ∈ (deleteNamespace env ns).2 ↔ env.infos = .ok []) := by
  refine ⟨?_, ?_, ?_, ?_⟩
  · intro e he
    simp [deleteNamespace, he]
  · intro he
    simp [deleteNamespace, he]
  · intro l hl hne
    simp [deleteNamespace, hl, List.length_eq_zero, hne]
  · cases he : env.infos with
    | error e => simp [deleteNamespace, he]
    | ok l =>
      cases l with
      | nil => simp [deleteNamespace, he]
      | cons a t => simp [deleteNamespace, he]

/-- C7, witness: the three listing outcomes at concrete environments. -/
theorem C7_witness :
    deleteNamespace deleteNsEnvErr "ns1" =
      (some { msg := "list failed" }, [Call.listInfos "ns1"]) ∧
    deleteNamespace deleteNsEnvEmpty "ns1" =
      (none, [Call.listInfos "ns1", Call.deleteNsObject "ns1"]) ∧
    deleteNamespace deleteNsEnvBusy "ns1" = (none, [Call.listInfos "ns1"]) :=
  ⟨(C7_theorem deleteNsEnvErr "ns1").1 { msg := "list failed" } rfl,
   (C7_theorem deleteNsEnvEmpty "ns1").2.1 rfl,
   (C7_theorem deleteNsEnvBusy "ns1").2.2.1
     [{ name := "p1", ns := "ns1", kind := "Pod" }] rfl (by decide)⟩

/-- C8: the patch is dispatched to the namespace-scoped endpoint exactly when
the resolved type is namespace-scoped, the namespace argument is ignored for
cluster-scoped types, and a gateway error (such as not-found on the target)
is returned as-is with no resource created — the only call issued is the
patch itself. -/
theorem C8_theorem (env : PatchEnv) (k n ns : String) (gvk : GVK)
    (rm : RestMapping)
    (hk : env.kindFor = .ok gvk) (hm : env.restMapping = .ok rm)
    (hc : env.restClient = .ok ()) :
    (rm.NamespaceScoped = true →
      (patchUsingStrategy env k n ns).2.2.2 =
        [Call.patchNamespaced rm.Resource ns n]) ∧
    (rm.NamespaceScoped = false →
      (patchUsingStrategy env k n ns).2.2.2 = [Call.patchCluster rm.Resource n] ∧
      ∀ ns2, patchUsingStrategy env k n ns2 = patchUsingStrategy env k n ns) ∧
    (∀ e, env.patchResult = .error e →
      (patchUsingStrategy env k n ns).2.2.1 = some e ∧
      (patchUsingStrategy env k n ns).2.1 = none ∧
      ∀ nsx, Call.createCall nsx ∉ (patchUsingStrategy env k n ns).2.2.2) := by
  refine ⟨?_, ?_, ?_⟩
  · intro hsc
    cases hp : env.patchResult with
    | error e => simp [patchUsingStrategy, hk, hm, hc, hsc, hp]
    | ok upd => simp [patchUsingStrategy, hk, hm, hc, hsc, hp]
  · intro hsc
    constructor
    · cases hp : env.patchResult with
      | error e => simp [patchUsingStrategy, hk, hm, hc, hsc, hp]
      | ok upd => simp [patchUsingStrategy, hk, hm, hc, hsc, hp]
    · intro ns2
      cases hp : env.patchResult with
      | error e => simp [patchUsingStrategy, hk, hm, hc, hsc, hp]
      | ok upd => simp [patchUsingStrategy, hk, hm, hc, hsc, hp]
  · intro e hp
    refine ⟨?_, ?_, ?_⟩ <;> cases hsc : rm.NamespaceScoped <;>
      simp [patchUsingStrategy, hk, hm, hc, hp, hsc]

/-- C8, witness: a namespace-scoped patch dispatches to the namespaced
endpoint, and a not-found gateway outcome is returned as the call's error. -/
theorem C8_witness :
    (patchUsingStrategy patchEnvPods "pod" "p1" "ns1").2.2.2 =
      [Call.patchNamespaced podsMapping.Resource "ns1" "p1"] ∧
    (patchUsingStrategy patchEnvNotFound "pod" "p1" "ns1").2.2.1 =
      some { notFound := true, msg := "pods p1 not found" } :=
  ⟨(C8_theorem patchEnvPods "pod" "p1" "ns1" podGVK podsMapping
      rfl rfl rfl).1 rfl,
   ((C8_theorem patchEnvNotFound "pod" "p1" "ns1" podGVK podsMapping
      rfl rfl rfl).2.2 { notFound := true, msg := "pods p1 not found" } rfl).1⟩

/-- C9: the Apply result does not depend on the outcome of the post-replace
refresh, and after a successful lookup and replace the apply succeeds (error
component none) with the usual manifest-derived result. -/
theorem C9_theorem (env : ApplyEnv) (u : Unstructured) (o : String)
    (rm : RestMapping)
    (hm : env.restMapping = .ok rm) (hc : env.restClient = .ok ())
    (hg : env.get = .ok ()) (hr : env.replace = .ok ()) :
    (∀ r, applyWithNamespaceOverride { env with refresh := r } u o =
        applyWithNamespaceOverride env u o) ∧
    (applyWithNamespaceOverride env u o).2.1 = none ∧
    Call.refreshCall ∈ (applyWithNamespaceOverride env u o).2.2 := by
  refine ⟨?_, ?_, ?_⟩
  · intro r
    rfl
  · simp [applyWithNamespaceOverride, hm, hc, hg, hr]
  · simp [applyWithNamespaceOverride, hm, hc, hg, hr]

/-- C9, witness: a failing refresh outcome leaves the successful replace-path
result unchanged. -/
theorem C9_witness :
    applyWithNamespaceOverride
        { applyEnvReplace with refresh := .error { msg := "refresh failed" } }
        deploymentManifest "" =
      applyWithNamespaceOverride applyEnvReplace deploymentManifest "" ∧
    (applyWithNamespaceOverride applyEnvReplace deploymentManifest "").2.1 =
      none :=
  ⟨(C9_theorem applyEnvReplace deploymentManifest "" deploymentsMapping
      rfl rfl rfl rfl).1 (.error { msg := "refresh failed" }),
   (C9_theorem applyEnvReplace deploymentManifest "" deploymentsMapping
      rfl rfl rfl rfl).2.1⟩

/-- On every failing path of Apply the returned Metadata is the zero value:
only the two success paths assign any field. -/
theorem apply_empty_metadata_of_error (env : ApplyEnv) (u : Unstructured)
    (o : String) (e : KubeErr)
    (h : (applyWithNamespaceOverride env u o).2.1 = some e) :
    (applyWithNamespaceOverride env u o).1 = {} := by
  rcases env with ⟨mrm, mrc, mg, mcr, mrep, mref⟩
  cases mrm with
  | error e1 => rfl
  | ok rm =>
    cases mrc with
    | error e1 => rfl
    | ok c =>
      cases mg with
      | ok g =>
        cases mrep with
        | error e1 => rfl
        | ok r => simp [applyWithNamespaceOverride] at h
      | error e1 =>
        by_cases hnf : e1.notFound
        · cases mcr with
          | error e2 => simp [applyWithNamespaceOverride, hnf]
          | ok c2 => simp [applyWithNamespaceOverride, hnf] at h
        · simp [applyWithNamespaceOverride, hnf]

/-- On every failing path of Patch the returned Metadata is the zero value
and the returned resource pointer is nil. -/
theorem patch_empty_metadata_of_error (env : PatchEnv) (k n ns : String)
    (e : KubeErr)
    (h : (patchUsingStrategy env k n ns).2.2.1 = some e) :
    (patchUsingStrategy env k n ns).1 = {} ∧
    (patchUsingStrategy env k n ns).2.1 = none := by
  rcases env with ⟨mk, mm, mc, mp⟩
  cases mk with
  | error e1 => exact ⟨rfl, rfl⟩
  | ok gvk =>
    cases mm with
    | error e1 => exact ⟨rfl, rfl⟩
    | ok rm =>
      cases mc with
      | error e1 => exact ⟨rfl, rfl⟩
      | ok c =>
        cases mp with
        | error e1 => exact ⟨rfl, rfl⟩
        | ok upd => simp [patchUsingStrategy] at h

/-- C10: once the three resolution steps of DeleteByKindNameNamespace have
succeeded, the returned descriptor (Kind and Name from the call's arguments)
is present and does not depend on the delete call's outcome, while the error
component is exactly that outcome — the caller receives both; by contrast,
Apply and Patch return a zero-valued result whenever they return an error. -/
theorem C10_theorem (envd : DeleteEnv) (enva : ApplyEnv) (envp : PatchEnv)
    (k n ns o : String) (u : Unstructured) (gvk : GVK) (rm : RestMapping)
    (hk : envd.kindFor = .ok gvk) (hm : envd.restMapping = .ok rm)
    (hc : envd.restClient = .ok ()) :
    (∀ d,
      (deleteResourceByKindAndNameAndNamespace
          { envd with deleteResult := d } k n ns).1 =
        (deleteResourceByKindAndNameAndNamespace envd k n ns).1 ∧
      (deleteResourceByKindAndNameAndNamespace
          { envd with deleteResult := d } k n ns).2.1 = d) ∧
    (∃ m, (deleteResourceByKindAndNameAndNamespace envd k n ns).1 = some m ∧
      m.Kind = k ∧ m.Name = n) ∧
    (∀ e, (applyWithNamespaceOverride enva u o).2.1 = some e →
      (applyWithNamespaceOverride enva u o).1 = {}) ∧
    (∀ e, (patchUsingStrategy envp k n ns).2.2.1 = some e →
      (patchUsingStrategy envp k n ns).1 = {} ∧
      (patchUsingStrategy envp k n ns).2.1 = none) := by
  refine ⟨?_, ?_, ?_, ?_⟩
  · intro d
    constructor
    · simp [deleteResourceByKindAndNameAndNamespace, hk, hm, hc]
    · simp [deleteResourceByKindAndNameAndNamespace, hk, hm, hc]
  · simp only [deleteResourceByKindAndNameAndNamespace, hk, hm, hc]
    exact ⟨_, rfl, rfl, rfl⟩
  · intro e he
    exact apply_empty_metadata_of_error enva u o e he
  · intro e he
    exact patch_empty_metadata_of_error envp k n ns e he

/-- C10, witness: a Pod delete whose gateway delete call fails still returns
the same populated descriptor as the successful delete, together with the
delete error. -/
theorem C10_witness :
    (deleteResourceByKindAndNameAndNamespace
        { deleteEnvPods with deleteResult := some { msg := "delete failed" } }
        "pods" "p1" "ns1").1 =
      (deleteResourceByKindAndNameAndNamespace deleteEnvPods "pods" "p1" "ns1").1 ∧
    (deleteResourceByKindAndNameAndNamespace
        { deleteEnvPods with deleteResult := some { msg := "delete failed" } }
        "pods" "p1" "ns1").2.1 = some { msg := "delete failed" } ∧
    (∃ m, (deleteResourceByKindAndNameAndNamespace deleteEnvPods "pods" "p1" "ns1").1 =
      some m ∧ m.Kind = "pods" ∧ m.Name = "p1") :=
  ⟨((C10_theorem deleteEnvPods applyEnvReplace patchEnvPods "pods" "p1" "ns1" ""
      deploymentManifest podGVK podsMapping rfl rfl rfl).1
        (some { msg := "delete failed" })).1,
   ((C10_theorem deleteEnvPods applyEnvReplace patchEnvPods "pods" "p1" "ns1" ""
      deploymentManifest podGVK podsMapping rfl rfl rfl).1
        (some { msg := "delete failed" })).2,
   (C10_theorem deleteEnvPods applyEnvReplace patchEnvPods "pods" "p1" "ns1" ""
      deploymentManifest podGVK podsMapping rfl rfl rfl).2.1⟩
